import Mathlib

/-!
Verification of the network-selection core of the ComSys project.

The embedding translates, over ℚ (for Python floats) and ℤ (for Python ints):
  * `src/app/models/schemas.py` — the data model,
  * `src/app/core/decision_logic.py` — the cost model and selection rule,
  * `src/app/services/simulation.py` — the simulator state machine.

Python's `TaskState` is a `str` Enum, so a member compares and hashes equal to
its underlying string and every dictionary in `decision_logic.py` is in effect
keyed on strings; a task is therefore embedded as its underlying string, the
three enum members being distinguished values, while any other string exercises
the `.get` fallback branches of the source.
-/

namespace ComSys

/-- `NetworkConfig` of `schemas.py`: static per-network energy parameters. -/
structure NetworkConfig where
  name : String
  energy_tx : ℚ
  energy_idle : ℚ
  energy_wakeup : ℚ
deriving DecidableEq

/-- `NetworkState` of `schemas.py`: dynamic snapshot of one network. -/
structure NetworkState where
  name : String
  bandwidth : ℚ
  latency : ℤ
  is_available : Bool
deriving DecidableEq

/-- A task is the underlying string of the `TaskState` `str` Enum. -/
abbrev TaskState := String

def IDLE_MONITORING : TaskState := "IDLE_MONITORING"
def DATA_BURST_ALERT : TaskState := "DATA_BURST_ALERT"
def VIDEO_STREAMING : TaskState := "VIDEO_STREAMING"

/-- One entry of the `TASK_WEIGHTS` table of `decision_logic.py`. -/
structure Weights where
  w_energy : ℚ
  w_qos : ℚ
deriving DecidableEq

/-- `TASK_WEIGHTS.get(task)`: the per-task weight table of `decision_logic.py`. -/
def TASK_WEIGHTS (task : TaskState) : Option Weights :=
  if task = IDLE_MONITORING then some ⟨8/10, 2/10⟩
  else if task = DATA_BURST_ALERT then some ⟨3/10, 7/10⟩
  else if task = VIDEO_STREAMING then some ⟨4/10, 6/10⟩
  else none

/-- One entry of the `QOS_REQUIREMENTS` table of `decision_logic.py`. -/
structure QosReq where
  min_bandwidth : ℚ
  max_latency : ℤ
  must_be_available : Bool
deriving DecidableEq

/-- `QOS_REQUIREMENTS.get(task)`: the per-task QoS requirement table. -/
def QOS_REQUIREMENTS (task : TaskState) : Option QosReq :=
  if task = IDLE_MONITORING then some ⟨1/10, 1000, true⟩
  else if task = DATA_BURST_ALERT then some ⟨5, 100, true⟩
  else if task = VIDEO_STREAMING then some ⟨10, 200, true⟩
  else none

/-- `data_size_estimates.get(task, 10.0)` inside `calculate_energy_cost`. -/
def data_size_estimates (task : TaskState) : ℚ :=
  if task = IDLE_MONITORING then 1
  else if task = DATA_BURST_ALERT then 50
  else if task = VIDEO_STREAMING then 1000
  else 10

/-- `calculate_energy_cost` of `decision_logic.py`.  The dynamic
`network_state` argument is accepted and ignored, exactly as in the source. -/
def calculate_energy_cost (network_config : NetworkConfig)
    (_network_state : NetworkState) (task : TaskState) : ℚ :=
  network_config.energy_idle
    + data_size_estimates task * network_config.energy_tx
    + network_config.energy_wakeup

/-- `calculate_qos_penalty` of `decision_logic.py`. -/
def calculate_qos_penalty (network_state : NetworkState) (task : TaskState) : ℚ :=
  match QOS_REQUIREMENTS task with
  | none => 0
  | some requirements =>
    if requirements.must_be_available && !network_state.is_available then 1000
    else
      let bandwidth_part : ℚ :=
        if network_state.bandwidth < requirements.min_bandwidth then
          (requirements.min_bandwidth - network_state.bandwidth) * 50
        else 0
      let penalty : ℚ :=
        bandwidth_part +
          (if requirements.max_latency < network_state.latency then
            ((network_state.latency - requirements.max_latency : ℤ) : ℚ) * 2
          else 0)
      if 500 < penalty then 1000 else penalty

/-- The raw accumulated penalty of `calculate_qos_penalty` before the
`> 500 → 1000` clamp: 50 per unit of bandwidth deficit plus 2 per unit of
latency excess against the given requirement. -/
def raw_penalty (network_state : NetworkState) (requirements : QosReq) : ℚ :=
  (if network_state.bandwidth < requirements.min_bandwidth then
    (requirements.min_bandwidth - network_state.bandwidth) * 50
  else 0) +
    (if requirements.max_latency < network_state.latency then
      ((network_state.latency - requirements.max_latency : ℤ) : ℚ) * 2
    else 0)

/-- `calculate_cost` of `decision_logic.py`; the `ValueError` raised for a task
with no weight entry is embedded as `Except.error`. -/
def calculate_cost (network_state : NetworkState) (network_config : NetworkConfig)
    (task : TaskState) : Except String ℚ :=
  match TASK_WEIGHTS task with
  | none => .error "Không tìm thấy trọng số cho task"
  | some weights =>
    .ok (weights.w_energy * calculate_energy_cost network_config network_state task
      + weights.w_qos * calculate_qos_penalty network_state task)

/-- The loop of `select_best_network`: `acc` carries `(best_network, min_cost)`
(`none` embeds the initial `best_network = None, min_cost = inf`, to which any
finite first cost compares `<`).  A candidate whose name has no config is
skipped (the source prints a warning and `continue`s); a `ValueError` raised by
`calculate_cost` propagates out as `Except.error`. -/
def select_loop (network_configs : String → Option NetworkConfig) (task : TaskState) :
    List NetworkState → Option (NetworkState × ℚ) → Except String (Option (NetworkState × ℚ))
  | [], acc => .ok acc
  | network :: rest, acc =>
    match network_configs network.name with
    | none => select_loop network_configs task rest acc
    | some config =>
      match calculate_cost network config task with
      | .error e => .error e
      | .ok cost =>
        select_loop network_configs task rest
          (match acc with
           | none => some (network, cost)
           | some best =>
             if cost < best.2 then some (network, cost) else some best)

/-- `select_best_network` of `decision_logic.py`.  The `Dict[str, NetworkConfig]`
argument is embedded as its `.get` lookup function. -/
def select_best_network (available_networks : List NetworkState)
    (network_configs : String → Option NetworkConfig) (task : TaskState) :
    Except String (NetworkState × ℚ) :=
  if available_networks = [] then .error "Không có mạng nào khả dụng"
  else
    match select_loop network_configs task available_networks none with
    | .error e => .error e
    | .ok none => .error "Không thể tìm thấy mạng phù hợp"
    | .ok (some result) => .ok result

/-- The `Except.ok` payload of `calculate_cost` once the weight pair `w` of the
task has been looked up. -/
def cost_value (w : Weights) (state : NetworkState) (config : NetworkConfig)
    (task : TaskState) : ℚ :=
  w.w_energy * calculate_energy_cost config state task
    + w.w_qos * calculate_qos_penalty state task

/-- The cost the selection loop computes for a candidate, as a total function
(the `none` branch is never reached on candidates that have a config). -/
def net_cost (network_configs : String → Option NetworkConfig) (w : Weights)
    (task : TaskState) (n : NetworkState) : ℚ :=
  match network_configs n.name with
  | some config => cost_value w n config task
  | none => 0

/-- The first-seen strict minimiser of `f` over a list (later elements replace
the incumbent only on a strictly smaller value, as in the source loop). -/
def first_min {α : Type} (f : α → ℚ) : List α → Option α
  | [] => none
  | x :: xs =>
    match first_min f xs with
    | none => some x
    | some y => if f y < f x then some y else some x

/-- The accumulator dynamics of the selection loop, abstracted over the cost
function: the pure `(best, min_cost)` recursion underneath `select_loop`. -/
def run_min {α : Type} (f : α → ℚ) : List α → Option (α × ℚ) → Option (α × ℚ)
  | [], acc => acc
  | x :: xs, acc =>
    run_min f xs
      (match acc with
       | none => some (x, f x)
       | some b => if f x < b.2 then some (x, f x) else some b)

/-- The element `run_min` ends on when started from incumbent `b`. -/
def pick {α : Type} (f : α → ℚ) (b : α) (l : List α) : α :=
  match first_min f l with
  | none => b
  | some y => if f y < f b then y else b

example : data_size_estimates VIDEO_STREAMING = 1000 := by decide
example : calculate_energy_cost ⟨"Wi-Fi", 1/2, 10, 2⟩ ⟨"Wi-Fi", 1, 1, true⟩ IDLE_MONITORING
    = 10 + 1 * (1/2) + 2 := by
  simp [calculate_energy_cost, data_size_estimates, IDLE_MONITORING]
example : calculate_qos_penalty ⟨"Wi-Fi", 50, 10, false⟩ IDLE_MONITORING = 1000 := by decide
example : calculate_qos_penalty ⟨"Wi-Fi", 50, 10, true⟩ IDLE_MONITORING = 0 := by
  simp [calculate_qos_penalty, QOS_REQUIREMENTS, IDLE_MONITORING]; norm_num
example : calculate_qos_penalty ⟨"N", 1, 150, true⟩ DATA_BURST_ALERT = 300 := by
  simp [calculate_qos_penalty, QOS_REQUIREMENTS, DATA_BURST_ALERT, IDLE_MONITORING]
  norm_num

lemma first_min_cons {α : Type} (f : α → ℚ) (x : α) (xs : List α) :
    first_min f (x :: xs) = some (pick f x xs) := by
  simp only [first_min, pick]
  cases h : first_min f xs with
  | none => rfl
  | some z => dsimp only; split <;> rfl

lemma pick_le {α : Type} (f : α → ℚ) (b : α) (l : List α) : f (pick f b l) ≤ f b := by
  unfold pick
  cases h : first_min f l with
  | none => exact le_refl _
  | some y =>
    dsimp only
    split
    · exact le_of_lt (by assumption)
    · exact le_refl _

lemma first_min_mem_le {α : Type} (f : α → ℚ) :
    ∀ (l : List α) (y : α), first_min f l = some y → y ∈ l ∧ ∀ x ∈ l, f y ≤ f x := by
  intro l
  induction l with
  | nil => intro y h; simp [first_min] at h
  | cons x xs ih =>
    intro y h
    rw [first_min_cons] at h
    cases hy : first_min f xs with
    | none =>
      cases xs with
      | nil =>
        simp only [pick, hy, first_min] at h
        cases h
        exact ⟨List.mem_singleton_self x, by intro u hu; simp at hu; rw [hu]⟩
      | cons a as => rw [first_min_cons] at hy; cases hy
    | some z =>
      obtain ⟨hz_mem, hz_le⟩ := ih z hy
      simp only [pick, hy] at h
      by_cases hlt : f z < f x
      · rw [if_pos hlt] at h
        cases h
        refine ⟨List.mem_cons_of_mem x hz_mem, ?_⟩
        intro u hu
        rcases List.mem_cons.mp hu with hux | huxs
        · rw [hux]; exact le_of_lt hlt
        · exact hz_le u huxs
      · rw [if_neg hlt] at h
        cases h
        refine ⟨List.mem_cons_self x xs, ?_⟩
        intro u hu
        rcases List.mem_cons.mp hu with hux | huxs
        · rw [hux]
        · exact le_trans (le_of_not_lt hlt) (hz_le u huxs)

lemma first_min_first {α : Type} (f : α → ℚ) :
    ∀ (l : List α) (y : α), first_min f l = some y →
      ∃ l1 l2, l = l1 ++ y :: l2 ∧ ∀ x ∈ l1, f y < f x := by
  intro l
  induction l with
  | nil => intro y h; simp [first_min] at h
  | cons x xs ih =>
    intro y h
    rw [first_min_cons] at h
    cases hy : first_min f xs with
    | none =>
      cases xs with
      | nil =>
        simp only [pick, hy, first_min] at h
        cases h
        exact ⟨[], [], rfl, by intro u hu; cases hu⟩
      | cons a as => rw [first_min_cons] at hy; cases hy
    | some z =>
      obtain ⟨l1, l2, hsplit, hstrict⟩ := ih z hy
      simp only [pick, hy] at h
      by_cases hlt : f z < f x
      · rw [if_pos hlt] at h
        cases h
        refine ⟨x :: l1, l2, by rw [hsplit, List.cons_append], ?_⟩
        intro u hu
        rcases List.mem_cons.mp hu with hux | hul1
        · rw [hux]; exact hlt
        · exact hstrict u hul1
      · rw [if_neg hlt] at h
        cases h
        exact ⟨[], xs, rfl, by intro u hu; cases hu⟩

lemma pick_cons {α : Type} (f : α → ℚ) (b x : α) (xs : List α) :
    pick f b (x :: xs) = if f (pick f x xs) < f b then pick f x xs else b := by
  have hdef : pick f b (x :: xs)
      = match first_min f (x :: xs) with
        | none => b
        | some y => if f y < f b then y else b := rfl
  rw [hdef, first_min_cons]

lemma run_min_some {α : Type} (f : α → ℚ) :
    ∀ (l : List α) (b : α),
      run_min f l (some (b, f b)) = some (pick f b l, f (pick f b l)) := by
  intro l
  induction l with
  | nil => intro b; simp [run_min, pick, first_min]
  | cons x xs ih =>
    intro b
    simp only [run_min]
    by_cases hxb : f x < f b
    · rw [if_pos hxb, ih x, pick_cons,
        if_pos (lt_of_le_of_lt (pick_le f x xs) hxb)]
    · rw [if_neg hxb, ih b, pick_cons]
      cases hy : first_min f xs with
      | none =>
        cases xs with
        | nil =>
          simp only [pick, first_min, hy]
          rw [if_neg hxb]
        | cons a as => rw [first_min_cons] at hy; cases hy
      | some z =>
        simp only [pick, hy]
        by_cases hzx : f z < f x
        · rw [if_pos hzx]
        · rw [if_neg hzx, if_neg hxb,
            if_neg (fun hzb => hxb (lt_of_le_of_lt (le_of_not_lt hzx) hzb))]

lemma run_min_none {α : Type} (f : α → ℚ) (l : List α) :
    run_min f l none = (first_min f l).map (fun y => (y, f y)) := by
  cases l with
  | nil => rfl
  | cons x xs =>
    simp only [run_min]
    rw [run_min_some, first_min_cons]
    rfl

lemma calculate_cost_ok (state : NetworkState) (config : NetworkConfig) (task : TaskState)
    (w : Weights) (hw : TASK_WEIGHTS task = some w) :
    calculate_cost state config task = .ok (cost_value w state config task) := by
  unfold calculate_cost cost_value
  rw [hw]

lemma net_cost_eq (network_configs : String → Option NetworkConfig) (w : Weights)
    (task : TaskState) (n : NetworkState) (config : NetworkConfig)
    (h : network_configs n.name = some config) :
    net_cost network_configs w task n = cost_value w n config task := by
  unfold net_cost
  rw [h]

lemma select_loop_run_min (network_configs : String → Option NetworkConfig)
    (task : TaskState) (w : Weights) (hw : TASK_WEIGHTS task = some w) :
    ∀ (l : List NetworkState) (acc : Option (NetworkState × ℚ)),
      select_loop network_configs task l acc
        = .ok (run_min (net_cost network_configs w task)
            (l.filter fun n => (network_configs n.name).isSome) acc) := by
  intro l
  induction l with
  | nil => intro acc; rfl
  | cons n rest ih =>
    intro acc
    simp only [select_loop, List.filter_cons]
    cases h : network_configs n.name with
    | none => simp only [h, Option.isSome_none, Bool.false_eq_true, if_false, ih]
    | some config =>
      simp only [h, Option.isSome_some, if_true, calculate_cost_ok n config task w hw]
      simp only [run_min, ih, net_cost_eq network_configs w task n config h]
      cases acc <;> rfl

lemma select_loop_all_skipped (network_configs : String → Option NetworkConfig)
    (task : TaskState) :
    ∀ (l : List NetworkState) (acc : Option (NetworkState × ℚ)),
      (∀ n ∈ l, network_configs n.name = none) →
      select_loop network_configs task l acc = .ok acc := by
  intro l
  induction l with
  | nil => intro acc _; rfl
  | cons n rest ih =>
    intro acc hall
    simp only [select_loop, hall n (List.mem_cons_self n rest)]
    exact ih acc (fun m hm => hall m (List.mem_cons_of_mem n hm))

lemma select_loop_filter (network_configs : String → Option NetworkConfig)
    (task : TaskState) :
    ∀ (l : List NetworkState) (acc : Option (NetworkState × ℚ)),
      select_loop network_configs task l acc
        = select_loop network_configs task
            (l.filter fun n => (network_configs n.name).isSome) acc := by
  intro l
  induction l with
  | nil => intro acc; rfl
  | cons n rest ih =>
    intro acc
    simp only [select_loop, List.filter_cons]
    cases h : network_configs n.name with
    | none => simp only [h, Option.isSome_none, Bool.false_eq_true, if_false, ih]
    | some config =>
      simp only [h, Option.isSome_some, if_true, select_loop]
      cases calculate_cost n config task with
      | error e => rfl
      | ok cost => exact ih _

/-- `calculate_qos_penalty` when the task has no registered requirement. -/
lemma qos_penalty_none (state : NetworkState) (task : TaskState)
    (hreq : QOS_REQUIREMENTS task = none) : calculate_qos_penalty state task = 0 := by
  unfold calculate_qos_penalty
  rw [hreq]

/-- `calculate_qos_penalty` re-expressed through `raw_penalty` when the task has
a registered requirement. -/
lemma qos_penalty_eq (state : NetworkState) (task : TaskState) (req : QosReq)
    (hreq : QOS_REQUIREMENTS task = some req) :
    calculate_qos_penalty state task
      = if (req.must_be_available && !state.is_available) = true then 1000
        else if 500 < raw_penalty state req then 1000 else raw_penalty state req := by
  unfold calculate_qos_penalty raw_penalty
  rw [hreq]

lemma raw_penalty_nonneg (state : NetworkState) (req : QosReq) :
    0 ≤ raw_penalty state req := by
  unfold raw_penalty
  have h1 : (0:ℚ) ≤
      if state.bandwidth < req.min_bandwidth then
        (req.min_bandwidth - state.bandwidth) * 50
      else 0 := by
    split
    · have hd : (0:ℚ) ≤ req.min_bandwidth - state.bandwidth := by linarith
      have : (0:ℚ) ≤ 50 := by norm_num
      exact mul_nonneg hd this
    · exact le_refl 0
  have h2 : (0:ℚ) ≤
      if req.max_latency < state.latency then
        ((state.latency - req.max_latency : ℤ) : ℚ) * 2
      else 0 := by
    split
    · have hd : (0:ℤ) ≤ state.latency - req.max_latency := by omega
      have hd2 : (0:ℚ) ≤ ((state.latency - req.max_latency : ℤ) : ℚ) := by
        exact_mod_cast hd
      have : (0:ℚ) ≤ 2 := by norm_num
      exact mul_nonneg hd2 this
    · exact le_refl 0
  linarith

/-- Fixed concrete inputs used by witnesses. -/
def wifiConfig : NetworkConfig := ⟨"Wi-Fi", 1/2, 10, 2⟩

def wifiState : NetworkState := ⟨"Wi-Fi", 50, 10, true⟩

def unavailableState : NetworkState := ⟨"Wi-Fi", 50, 10, false⟩

def demoConfigs : String → Option NetworkConfig :=
  fun s => if s = "Wi-Fi" then some wifiConfig else none

/-- C2: `calculate_cost` returns `w_energy * energy_cost + w_qos * qos_penalty`
for the task's registered weight pair, and fails with the invalid-task
`ValueError` when the task has no registered weight pair. -/
theorem C2_calculate_cost (state : NetworkState) (config : NetworkConfig)
    (task : TaskState) :
    (∀ w, TASK_WEIGHTS task = some w →
      calculate_cost state config task
        = .ok (w.w_energy * calculate_energy_cost config state task
            + w.w_qos * calculate_qos_penalty state task))
    ∧ (TASK_WEIGHTS task = none →
      calculate_cost state config task = .error "Không tìm thấy trọng số cho task") := by
  constructor
  · intro w hw
    unfold calculate_cost
    rw [hw]
  · intro hw
    unfold calculate_cost
    rw [hw]

/-- C3: whenever the task's registered requirement demands availability and the
network is not available, the QoS penalty is exactly 1000, for every bandwidth
and latency. -/
theorem C3_qos_penalty_unavailable (state : NetworkState) (task : TaskState)
    (req : QosReq) (hreq : QOS_REQUIREMENTS task = some req)
    (hmba : req.must_be_available = true) (hav : state.is_available = false) :
    calculate_qos_penalty state task = 1000 := by
  unfold calculate_qos_penalty
  rw [hreq]
  simp [hmba, hav]

theorem C3_witness : calculate_qos_penalty unavailableState IDLE_MONITORING = 1000 :=
  C3_qos_penalty_unavailable unavailableState IDLE_MONITORING ⟨1/10, 1000, true⟩
    rfl rfl rfl

/-- C4 (amended): the penalty always lies in `[0, 1000]` and never strictly
between 500 and 1000; on the accumulation path — a registered requirement whose
availability gate passes — it equals the raw penalty clamped to 1000 when that
raw penalty exceeds 500. -/
theorem C4_qos_penalty_range (state : NetworkState) (task : TaskState) :
    (0 ≤ calculate_qos_penalty state task ∧ calculate_qos_penalty state task ≤ 1000)
    ∧ ¬(500 < calculate_qos_penalty state task ∧ calculate_qos_penalty state task < 1000)
    ∧ (∀ req, QOS_REQUIREMENTS task = some req →
        (req.must_be_available && !state.is_available) = false →
        calculate_qos_penalty state task
          = if 500 < raw_penalty state req then 1000 else raw_penalty state req) := by
  cases hreq : QOS_REQUIREMENTS task with
  | none =>
    rw [qos_penalty_none state task hreq]
    refine ⟨⟨le_refl 0, by norm_num⟩, ?_, ?_⟩
    · rintro ⟨h5, _⟩
      exact absurd h5 (by norm_num)
    · intro req h
      cases h
  | some req0 =>
    rw [qos_penalty_eq state task req0 hreq]
    by_cases hgate : (req0.must_be_available && !state.is_available) = true
    · rw [if_pos hgate]
      refine ⟨⟨by norm_num, le_refl _⟩, ?_, ?_⟩
      · rintro ⟨_, h⟩
        exact absurd h (by norm_num)
      · intro req h hfalse
        injection h with h2
        subst h2
        rw [hgate] at hfalse
        cases hfalse
    · rw [if_neg hgate]
      have hr0 : 0 ≤ raw_penalty state req0 := raw_penalty_nonneg state req0
      by_cases h5 : 500 < raw_penalty state req0
      · rw [if_pos h5]
        refine ⟨⟨by norm_num, le_refl _⟩, ?_, ?_⟩
        · rintro ⟨_, h⟩
          exact absurd h (by norm_num)
        · intro req h _
          injection h with h2
          subst h2
          rw [if_pos h5]
      · rw [if_neg h5]
        refine ⟨⟨hr0, by linarith [le_of_not_lt h5]⟩, ?_, ?_⟩
        · rintro ⟨h, _⟩
          exact h5 h
        · intro req h _
          injection h with h2
          subst h2
          rw [if_neg h5]

/-- C4 counterexample: for an unavailable network under an availability-requiring
task, the raw accumulated penalty is 0 (not above 500), yet the function returns
1000 rather than the raw penalty, refuting the unconditional mechanism clause. -/
theorem C4_counterexample :
    QOS_REQUIREMENTS IDLE_MONITORING = some ⟨1/10, 1000, true⟩
    ∧ raw_penalty unavailableState ⟨1/10, 1000, true⟩ = 0
    ∧ ¬(500 < raw_penalty unavailableState ⟨1/10, 1000, true⟩)
    ∧ calculate_qos_penalty unavailableState IDLE_MONITORING = 1000
    ∧ calculate_qos_penalty unavailableState IDLE_MONITORING
        ≠ raw_penalty unavailableState ⟨1/10, 1000, true⟩ := by
  have hraw : raw_penalty unavailableState ⟨1/10, 1000, true⟩ = 0 := by
    unfold raw_penalty unavailableState
    norm_num
  have hpen : calculate_qos_penalty unavailableState IDLE_MONITORING = 1000 := by decide
  refine ⟨rfl, hraw, ?_, hpen, ?_⟩
  · rw [hraw]
    norm_num
  · rw [hraw, hpen]
    norm_num

/-- C5: the energy cost is exactly
`energy_idle + payload_size(task) * energy_tx + energy_wakeup` with the fixed
payload table (1 for idle monitoring, 50 for burst alert, 1000 for streaming,
10 as fallback); it is strictly positive for positive tx/idle and nonnegative
wakeup energies, and does not depend on the network-state argument. -/
theorem C5_energy_cost (config : NetworkConfig) (state : NetworkState)
    (task : TaskState) (htx : 0 < config.energy_tx) (hidle : 0 < config.energy_idle)
    (hwk : 0 ≤ config.energy_wakeup) :
    calculate_energy_cost config state task
      = config.energy_idle + data_size_estimates task * config.energy_tx
        + config.energy_wakeup
    ∧ 0 < calculate_energy_cost config state task
    ∧ (∀ other : NetworkState,
        calculate_energy_cost config other task = calculate_energy_cost config state task)
    ∧ data_size_estimates IDLE_MONITORING = 1
    ∧ data_size_estimates DATA_BURST_ALERT = 50
    ∧ data_size_estimates VIDEO_STREAMING = 1000
    ∧ (task ≠ IDLE_MONITORING → task ≠ DATA_BURST_ALERT → task ≠ VIDEO_STREAMING →
        data_size_estimates task = 10) := by
  have hds : 0 < data_size_estimates task := by
    unfold data_size_estimates
    split_ifs <;> norm_num
  refine ⟨rfl, ?_, fun other => rfl, rfl, rfl, rfl, ?_⟩
  · unfold calculate_energy_cost
    have := mul_pos hds htx
    linarith
  · intro h1 h2 h3
    unfold data_size_estimates
    rw [if_neg h1, if_neg h2, if_neg h3]

theorem C5_witness : 0 < calculate_energy_cost wifiConfig wifiState IDLE_MONITORING :=
  (C5_energy_cost wifiConfig wifiState IDLE_MONITORING
    (by norm_num [wifiConfig]) (by norm_num [wifiConfig]) (by norm_num [wifiConfig])).2.1

/-- C6: selection fails with the empty-candidates error on an empty list, fails
with the distinct no-match error when every candidate's name lacks a config, and
otherwise behaves exactly as if the config-less candidates had been dropped
(they are skipped non-fatally and selection continues over the remainder). -/
theorem C6_select_errors :
    (∀ (network_configs : String → Option NetworkConfig) (task : TaskState),
      select_best_network [] network_configs task
        = .error "Không có mạng nào khả dụng")
    ∧ (∀ (available_networks : List NetworkState)
        (network_configs : String → Option NetworkConfig) (task : TaskState),
        available_networks ≠ [] →
        (∀ n ∈ available_networks, network_configs n.name = none) →
        select_best_network available_networks network_configs task
          = .error "Không thể tìm thấy mạng phù hợp")
    ∧ (∀ (available_networks : List NetworkState)
        (network_configs : String → Option NetworkConfig) (task : TaskState),
        available_networks.filter (fun n => (network_configs n.name).isSome) ≠ [] →
        select_best_network available_networks network_configs task
          = select_best_network
              (available_networks.filter fun n => (network_configs n.name).isSome)
              network_configs task) := by
  refine ⟨fun network_configs task => rfl, ?_, ?_⟩
  · intro nets configs task hne hall
    unfold select_best_network
    rw [if_neg hne, select_loop_all_skipped configs task nets none hall]
  · intro nets configs task hfil
    have hne : nets ≠ [] := by
      intro h
      rw [h] at hfil
      exact hfil rfl
    unfold select_best_network
    rw [if_neg hne, if_neg hfil, select_loop_filter configs task nets none]

/-- C1: with a registered weight pair and at least one config-bearing candidate,
`select_best_network` returns a config-bearing candidate together with its
`calculate_cost` value, that cost is minimal among all config-bearing
candidates, and the chosen candidate strictly beats every config-bearing
candidate that precedes it (ties keep the first-seen minimum). -/
theorem C1_select_best_network_first_min (available_networks : List NetworkState)
    (network_configs : String → Option NetworkConfig) (task : TaskState) (w : Weights)
    (hw : TASK_WEIGHTS task = some w)
    (hex : ∃ n ∈ available_networks, (network_configs n.name).isSome = true) :
    ∃ chosen cost,
      select_best_network available_networks network_configs task = .ok (chosen, cost)
      ∧ (∃ config, network_configs chosen.name = some config
          ∧ calculate_cost chosen config task = .ok cost)
      ∧ (∀ n ∈ available_networks, ∀ config c, network_configs n.name = some config →
          calculate_cost n config task = .ok c → cost ≤ c)
      ∧ (∃ l1 l2,
          available_networks.filter (fun n => (network_configs n.name).isSome)
            = l1 ++ chosen :: l2
          ∧ ∀ n ∈ l1, ∀ config c, network_configs n.name = some config →
              calculate_cost n config task = .ok c → cost < c) := by
  obtain ⟨n0, hn0_mem, hn0_some⟩ := hex
  have hne : available_networks ≠ [] := List.ne_nil_of_mem hn0_mem
  have hn0_elig : n0 ∈ available_networks.filter
      (fun n => (network_configs n.name).isSome) :=
    List.mem_filter.mpr ⟨hn0_mem, hn0_some⟩
  obtain ⟨y, hy⟩ : ∃ y, first_min (net_cost network_configs w task)
      (available_networks.filter (fun n => (network_configs n.name).isSome)) = some y := by
    cases helig : available_networks.filter (fun n => (network_configs n.name).isSome) with
    | nil =>
      rw [helig] at hn0_elig
      cases hn0_elig
    | cons a as =>
      rw [first_min_cons]
      exact ⟨_, rfl⟩
  have hloop := select_loop_run_min network_configs task w hw available_networks none
  rw [run_min_none, hy] at hloop
  have hsel : select_best_network available_networks network_configs task
      = .ok (y, net_cost network_configs w task y) := by
    unfold select_best_network
    rw [if_neg hne, hloop]
    rfl
  obtain ⟨hy_mem, hy_le⟩ := first_min_mem_le (net_cost network_configs w task) _ y hy
  obtain ⟨l1, l2, hsplit, hstrict⟩ := first_min_first (net_cost network_configs w task) _ y hy
  obtain ⟨hy_nets, hy_some⟩ := List.mem_filter.mp hy_mem
  obtain ⟨config_y, hconfig_y⟩ := Option.isSome_iff_exists.mp hy_some
  refine ⟨y, net_cost network_configs w task y, hsel, ⟨config_y, hconfig_y, ?_⟩, ?_, l1, l2,
    hsplit, ?_⟩
  · rw [calculate_cost_ok y config_y task w hw,
      net_cost_eq network_configs w task y config_y hconfig_y]
  · intro n hn config c hcfg hcost
    have hn_elig : n ∈ available_networks.filter
        (fun n => (network_configs n.name).isSome) :=
      List.mem_filter.mpr ⟨hn, by rw [hcfg]; rfl⟩
    have hle := hy_le n hn_elig
    rw [calculate_cost_ok n config task w hw] at hcost
    injection hcost with hc
    rw [← hc, ← net_cost_eq network_configs w task n config hcfg]
    exact hle
  · intro n hn config c hcfg hcost
    have hlt := hstrict n hn
    rw [calculate_cost_ok n config task w hw] at hcost
    injection hcost with hc
    rw [← hc, ← net_cost_eq network_configs w task n config hcfg]
    exact hlt

theorem C1_witness :
    ∃ chosen cost,
      select_best_network [wifiState] demoConfigs IDLE_MONITORING = .ok (chosen, cost)
      ∧ (∃ config, demoConfigs chosen.name = some config
          ∧ calculate_cost chosen config IDLE_MONITORING = .ok cost)
      ∧ (∀ n ∈ [wifiState], ∀ config c, demoConfigs n.name = some config →
          calculate_cost n config IDLE_MONITORING = .ok c → cost ≤ c)
      ∧ (∃ l1 l2,
          [wifiState].filter (fun n => (demoConfigs n.name).isSome) = l1 ++ chosen :: l2
          ∧ ∀ n ∈ l1, ∀ config c, demoConfigs n.name = some config →
              calculate_cost n config IDLE_MONITORING = .ok c → cost < c) :=
  C1_select_best_network_first_min [wifiState] demoConfigs IDLE_MONITORING ⟨8/10, 2/10⟩
    rfl ⟨wifiState, List.mem_singleton_self wifiState, rfl⟩

/-! ### Environment simulator (`src/app/services/simulation.py`)

Randomness (`random.random()`, `random.choice`) is passed in as explicit
parameters, and the floating `math.sqrt` of `_calculate_distance` is abstracted
as a distance function `dist` constrained, where a claim needs it, to order
against the configured maximum ranges exactly as the true Euclidean distance
does (`d ≤ r ↔ d² ≤ r²` for `r ≥ 0`). -/

/-- `DeviceState` of `schemas.py`. -/
structure DeviceState where
  position : ℤ × ℤ
  current_task : TaskState
  available_networks : List NetworkState
deriving DecidableEq

/-- The mutable attributes of a `SimulationEngine` instance. -/
structure SimState where
  map_size : ℤ × ℤ
  simulation_step : ℕ
  network_configs : List (String × NetworkConfig)
  base_stations : List (String × List (ℤ × ℤ))
  device_state : DeviceState
deriving DecidableEq

/-- `_init_network_configs`. -/
def init_network_configs : List (String × NetworkConfig) :=
  [("Wi-Fi", ⟨"Wi-Fi", 1/2, 10, 2⟩),
   ("5G", ⟨"5G", 12/10, 15, 5⟩),
   ("BLE", ⟨"BLE", 1/10, 2, 1/2⟩)]

/-- `_init_base_stations`. -/
def init_base_stations : List (String × List (ℤ × ℤ)) :=
  [("Wi-Fi", [(100, 100), (300, 250), (600, 400), (800, 750)]),
   ("5G", [(200, 200), (500, 300), (700, 600), (900, 100)]),
   ("BLE", [(150, 150), (350, 350), (550, 550), (750, 750)])]

/-- Squared Euclidean distance; `_calculate_distance` returns its square root. -/
def dist_sq (p q : ℤ × ℤ) : ℤ := (p.1 - q.1) ^ 2 + (p.2 - q.2) ^ 2

/-- One row of the `max_specs` table inside `_calculate_qos_by_distance`. -/
structure QosSpec where
  bandwidth : ℚ
  latency : ℚ
  max_range : ℚ
deriving DecidableEq

/-- The `max_specs` per-network-type table. -/
def max_specs (network_type : String) : Option QosSpec :=
  if network_type = "Wi-Fi" then some ⟨100, 5, 100⟩
  else if network_type = "5G" then some ⟨200, 10, 500⟩
  else if network_type = "BLE" then some ⟨2, 20, 50⟩
  else none

/-- Python `int()` truncation toward zero on a rational. -/
def rat_trunc (q : ℚ) : ℤ := Int.tdiv q.num (q.den : ℤ)

/-- `_calculate_qos_by_distance`, parameterised by the computed distance and by
the two multiplicative noise factors `0.8 + 0.4 * random.random()` the source
draws for bandwidth and latency. -/
def calculate_qos_by_distance (distance : ℚ) (network_type : String)
    (noise_b noise_l : ℚ) : ℚ × ℤ :=
  match max_specs network_type with
  | none => (0, 9999)
  | some spec =>
    if spec.max_range < distance then (0, 9999)
    else
      let distance_ratio := distance / spec.max_range
      let bandwidth := spec.bandwidth * (1 - 9/10 * distance_ratio) * noise_b
      let latency := spec.latency * (1 + 9 * distance_ratio) * noise_l
      (max (1/10) bandwidth, max 5 (rat_trunc latency))

/-- `_find_best_base_station`: scan the type's stations keeping the first-seen
strict minimiser of the distance, and return it with its QoS (the station loop
recomputes the QoS at each improvement, so the returned pair carries the draw
made at the final, nearest station — the `noise_b`/`noise_l` parameters). -/
def find_best_base_station (dist : ℤ × ℤ → ℤ × ℤ → ℚ) (noise_b noise_l : ℚ)
    (base_stations : List (String × List (ℤ × ℤ))) (device_position : ℤ × ℤ)
    (network_type : String) : Option (ℤ × ℤ) × (ℚ × ℤ) :=
  match base_stations.lookup network_type with
  | none => (none, (0, 9999))
  | some stations =>
    match first_min (dist device_position) stations with
    | none => (none, (0, 9999))
    | some best_station =>
      (some best_station,
       calculate_qos_by_distance (dist device_position best_station) network_type
         noise_b noise_l)

/-- Python `round(x, 1)`: nearest multiple of 1/10.  (CPython rounds half to
even; the conventions agree away from exact halves and the bounds proved here
hold for either.) -/
def round1 (q : ℚ) : ℚ := (round (10 * q) : ℤ) / 10

/-- The list `_update_available_networks` rebuilds: one entry per configured
network type whose best station yields strictly positive bandwidth. -/
def compute_available_networks (dist : ℤ × ℤ → ℤ × ℤ → ℚ) (noise : String → ℚ × ℚ)
    (network_configs : List (String × NetworkConfig))
    (base_stations : List (String × List (ℤ × ℤ)))
    (current_pos : ℤ × ℤ) : List NetworkState :=
  network_configs.filterMap (fun p =>
    let qos := (find_best_base_station dist (noise p.1).1 (noise p.1).2
      base_stations current_pos p.1).2
    if 0 < qos.1 then
      some ⟨p.1, round1 qos.1, qos.2, true⟩
    else none)

/-- `_update_available_networks`: recompute the reachable-network list for the
current position; only `device_state.available_networks` changes. -/
def update_available_networks (dist : ℤ × ℤ → ℤ × ℤ → ℚ) (noise : String → ℚ × ℚ)
    (s : SimState) : SimState :=
  let nets := compute_available_networks dist noise s.network_configs s.base_stations
    s.device_state.position
  { s with device_state := { s.device_state with available_networks := nets } }

/-- `_generate_random_task`, parameterised by the `random.random()` draw
(cumulative thresholds 0.6, 0.9, 1.0 in dictionary insertion order, with the
idle fallback). -/
def generate_random_task (rand : ℚ) : TaskState :=
  if rand ≤ 6/10 then IDLE_MONITORING
  else if rand ≤ 6/10 + 3/10 then DATA_BURST_ALERT
  else if rand ≤ 6/10 + 3/10 + 1/10 then VIDEO_STREAMING
  else IDLE_MONITORING

/-- `_move_device`, parameterised by the direction `random.choice` would pick in
the third phase (ignored in the first two). -/
def move_device (dir : ℤ × ℤ) (step_size : ℤ) (s : SimState) : ℤ × ℤ :=
  if s.simulation_step < 100 then
    (min (s.device_state.position.1 + step_size) (s.map_size.1 - 1),
     s.device_state.position.2)
  else if s.simulation_step < 200 then
    (s.device_state.position.1,
     min (s.device_state.position.2 + step_size) (s.map_size.2 - 1))
  else
    (max 0 (min (s.device_state.position.1 + dir.1) (s.map_size.1 - 1)),
     max 0 (min (s.device_state.position.2 + dir.2) (s.map_size.2 - 1)))

/-- `run_simulation_step`: advance the counter, move (default step size 10),
draw a task, and recompute the reachable networks at the new position. -/
def run_simulation_step (dist : ℤ × ℤ → ℤ × ℤ → ℚ) (noise : String → ℚ × ℚ)
    (dir : ℤ × ℤ) (rand : ℚ) (s : SimState) : SimState :=
  let s1 : SimState := { s with simulation_step := s.simulation_step + 1 }
  let new_position := move_device dir 10 s1
  let new_task := generate_random_task rand
  let d2 : DeviceState :=
    { s1.device_state with position := new_position, current_task := new_task }
  update_available_networks dist noise { s1 with device_state := d2 }

/-- `reset_simulation`. -/
def reset_simulation (dist : ℤ × ℤ → ℤ × ℤ → ℚ) (noise : String → ℚ × ℚ)
    (s : SimState) (new_position : ℤ × ℤ) : SimState :=
  let d2 : DeviceState :=
    { s.device_state with position := new_position, current_task := IDLE_MONITORING }
  update_available_networks dist noise { s with simulation_step := 0, device_state := d2 }

/-- `__init__`: fixed tables, device at the origin with the idle task and a
placeholder network, then an immediate availability recomputation. -/
def init_simulation (dist : ℤ × ℤ → ℤ × ℤ → ℚ) (noise : String → ℚ × ℚ)
    (map_size : ℤ × ℤ) : SimState :=
  let d0 : DeviceState := ⟨(0, 0), IDLE_MONITORING, [⟨"Temp", 1, 100, true⟩]⟩
  update_available_networks dist noise
    ⟨map_size, 0, init_network_configs, init_base_stations, d0⟩

/-- C7: out of range the QoS is the (0, 9999) sentinel; in range the pre-noise
bandwidth is `P * (1 - 0.9 * d/R)` (hence `P` at `d = 0` and `0.1 * P` at
`d = R`) and the pre-noise latency is `L * (1 + 9 * d/R)` (hence `L` at `d = 0`
and `10 * L` at `d = R`); after the multiplicative noise, bandwidth is floored
at 0.1 and the truncated latency at 5. -/
theorem C7_qos_by_distance (network_type : String) (spec : QosSpec)
    (hspec : max_specs network_type = some spec) (distance noise_b noise_l : ℚ) :
    (spec.max_range < distance →
      calculate_qos_by_distance distance network_type noise_b noise_l = (0, 9999))
    ∧ (distance ≤ spec.max_range →
      calculate_qos_by_distance distance network_type noise_b noise_l
        = (max (1/10) (spec.bandwidth * (1 - 9/10 * (distance / spec.max_range)) * noise_b),
           max 5 (rat_trunc
             (spec.latency * (1 + 9 * (distance / spec.max_range)) * noise_l))))
    ∧ spec.bandwidth * (1 - 9/10 * (0 / spec.max_range)) = spec.bandwidth
    ∧ spec.latency * (1 + 9 * (0 / spec.max_range)) = spec.latency
    ∧ (spec.max_range ≠ 0 →
        spec.bandwidth * (1 - 9/10 * (spec.max_range / spec.max_range))
          = 1/10 * spec.bandwidth)
    ∧ (spec.max_range ≠ 0 →
        spec.latency * (1 + 9 * (spec.max_range / spec.max_range)) = 10 * spec.latency) := by
  refine ⟨?_, ?_, ?_, ?_, ?_, ?_⟩
  · intro h
    unfold calculate_qos_by_distance
    rw [hspec]
    dsimp only
    rw [if_pos h]
  · intro h
    unfold calculate_qos_by_distance
    rw [hspec]
    dsimp only
    rw [if_neg (not_lt.mpr h)]
  · rw [zero_div]
    ring
  · rw [zero_div]
    ring
  · intro h
    rw [div_self h]
    ring
  · intro h
    rw [div_self h]
    ring

theorem C7_witness :
    ((100:ℚ) < 50 → calculate_qos_by_distance 50 "Wi-Fi" 1 1 = (0, 9999))
    ∧ ((50:ℚ) ≤ 100 → calculate_qos_by_distance 50 "Wi-Fi" 1 1
        = (max (1/10) (100 * (1 - 9/10 * (50 / 100)) * 1),
           max 5 (rat_trunc (5 * (1 + 9 * (50 / 100)) * 1))))
    ∧ (100:ℚ) * (1 - 9/10 * (0 / 100)) = 100
    ∧ (5:ℚ) * (1 + 9 * (0 / 100)) = 5
    ∧ ((100:ℚ) ≠ 0 → (100:ℚ) * (1 - 9/10 * (100 / 100)) = 1/10 * 100)
    ∧ ((100:ℚ) ≠ 0 → (5:ℚ) * (1 + 9 * (100 / 100)) = 10 * 5) :=
  C7_qos_by_distance "Wi-Fi" ⟨100, 5, 100⟩ rfl 50 1 1

/-- C10: `reset_simulation` zeroes the step counter, forces the idle task,
moves the device exactly to the given coordinate and recomputes the
available-network list there, leaving the map size, config table and station
layout unchanged. -/
theorem C10_reset (dist : ℤ × ℤ → ℤ × ℤ → ℚ) (noise : String → ℚ × ℚ)
    (s : SimState) (p : ℤ × ℤ) :
    (reset_simulation dist noise s p).simulation_step = 0
    ∧ (reset_simulation dist noise s p).device_state.current_task = IDLE_MONITORING
    ∧ (reset_simulation dist noise s p).device_state.position = p
    ∧ (reset_simulation dist noise s p).device_state.available_networks
        = compute_available_networks dist noise s.network_configs s.base_stations p
    ∧ (reset_simulation dist noise s p).map_size = s.map_size
    ∧ (reset_simulation dist noise s p).network_configs = s.network_configs
    ∧ (reset_simulation dist noise s p).base_stations = s.base_stations :=
  ⟨rfl, rfl, rfl, rfl, rfl, rfl, rfl⟩

/-- C8 (amended): the movement policy is keyed by the already-incremented step
counter, so the `n`-th call moves +10 on x during calls 1–99, +10 on y during
calls 100–199, and one random step_size step in one of the four axis directions
from call 200 onward (the claim's 1–100 / 101–200 / 201+ boundaries are off by
one against the code, which increments the counter before consulting it). -/
theorem C8_move_phases (dist : ℤ × ℤ → ℤ × ℤ → ℚ) (noise : String → ℚ × ℚ)
    (dir : ℤ × ℤ) (rand : ℚ) (s : SimState) :
    (run_simulation_step dist noise dir rand s).simulation_step = s.simulation_step + 1
    ∧ (s.simulation_step + 1 < 100 →
        (run_simulation_step dist noise dir rand s).device_state.position
          = (min (s.device_state.position.1 + 10) (s.map_size.1 - 1),
             s.device_state.position.2))
    ∧ (100 ≤ s.simulation_step + 1 → s.simulation_step + 1 < 200 →
        (run_simulation_step dist noise dir rand s).device_state.position
          = (s.device_state.position.1,
             min (s.device_state.position.2 + 10) (s.map_size.2 - 1)))
    ∧ (200 ≤ s.simulation_step + 1 →
        dir ∈ [((-10:ℤ), (0:ℤ)), (10, 0), (0, -10), (0, 10)] →
        (run_simulation_step dist noise dir rand s).device_state.position
          = (max 0 (min (s.device_state.position.1 + dir.1) (s.map_size.1 - 1)),
             max 0 (min (s.device_state.position.2 + dir.2) (s.map_size.2 - 1)))) := by
  refine ⟨rfl, ?_, ?_, ?_⟩
  · intro h
    show move_device dir 10 { s with simulation_step := s.simulation_step + 1 } = _
    unfold move_device
    rw [if_pos h]
  · intro h100 h200
    show move_device dir 10 { s with simulation_step := s.simulation_step + 1 } = _
    unfold move_device
    rw [if_neg (not_lt.mpr h100), if_pos h200]
  · intro h200 _
    show move_device dir 10 { s with simulation_step := s.simulation_step + 1 } = _
    unfold move_device
    rw [if_neg (not_lt.mpr (le_trans (by norm_num) h200)),
      if_neg (not_lt.mpr h200)]

/-- Fixtures for the concrete movement counterexample. -/
def dist0 : ℤ × ℤ → ℤ × ℤ → ℚ := fun _ _ => 0

def noise0 : String → ℚ × ℚ := fun _ => (1, 1)

def c8State : SimState :=
  ⟨(1000, 1000), 99, init_network_configs, init_base_stations,
   ⟨(500, 500), IDLE_MONITORING, []⟩⟩

/-- C8 counterexample: on the 100th call (counter 99 → 100) the device moves
vertically to (500, 510), while the claim's "steps 1–100 move +step on x"
predicts (510, 500). -/
theorem C8_counterexample :
    (run_simulation_step dist0 noise0 (10, 0) 0 c8State).simulation_step = 100
    ∧ (run_simulation_step dist0 noise0 (10, 0) 0 c8State).device_state.position
        = (500, 510)
    ∧ (run_simulation_step dist0 noise0 (10, 0) 0 c8State).device_state.position
        ≠ (510, 500) := by
  refine ⟨rfl, ?_, ?_⟩
  · show move_device (10, 0) 10 { c8State with simulation_step := 100 } = (500, 510)
    decide
  · show move_device (10, 0) 10 { c8State with simulation_step := 100 } ≠ (510, 500)
    decide

lemma first_min_eq_none {α : Type} (f : α → ℚ) :
    ∀ l : List α, first_min f l = none → l = []
  | [], _ => rfl
  | x :: xs, h => by rw [first_min_cons] at h; cases h

lemma round1_ge_tenth (q : ℚ) (h : 1/10 ≤ q) : 1/10 ≤ round1 q := by
  unfold round1
  have h2 : (1:ℤ) ≤ round (10 * q) := by
    rw [round_eq]
    refine Int.le_floor.mpr ?_
    push_cast
    linarith
  have h3 : (1:ℚ) ≤ ((round (10 * q) : ℤ) : ℚ) := by exact_mod_cast h2
  linarith

lemma find_best_qos_bounds (dist : ℤ × ℤ → ℤ × ℤ → ℚ) (noise_b noise_l : ℚ)
    (base_stations : List (String × List (ℤ × ℤ))) (pos : ℤ × ℤ) (t : String)
    (h : 0 < (find_best_base_station dist noise_b noise_l base_stations pos t).2.1) :
    1/10 ≤ (find_best_base_station dist noise_b noise_l base_stations pos t).2.1
    ∧ 5 ≤ (find_best_base_station dist noise_b noise_l base_stations pos t).2.2 := by
  unfold find_best_base_station at h ⊢
  cases hl : base_stations.lookup t with
  | none =>
    rw [hl] at h
    norm_num at h
  | some stations =>
    rw [hl] at h
    dsimp only at h ⊢
    cases hfm : first_min (dist pos) stations with
    | none =>
      rw [hfm] at h
      norm_num at h
    | some best =>
      rw [hfm] at h
      dsimp only at h ⊢
      unfold calculate_qos_by_distance at h ⊢
      cases hsp : max_specs t with
      | none =>
        rw [hsp] at h
        norm_num at h
      | some spec =>
        rw [hsp] at h
        dsimp only at h ⊢
        by_cases hr : spec.max_range < dist pos best
        · rw [if_pos hr] at h
          norm_num at h
        · rw [if_neg hr] at h ⊢
          exact ⟨le_max_left _ _, le_max_left _ _⟩

lemma find_best_pos_iff (dist : ℤ × ℤ → ℤ × ℤ → ℚ) (noise_b noise_l : ℚ)
    (base_stations : List (String × List (ℤ × ℤ))) (pos : ℤ × ℤ) (t : String)
    (spec : QosSpec) (stations : List (ℤ × ℤ))
    (hspec : max_specs t = some spec)
    (hlookup : base_stations.lookup t = some stations)
    (hdist : ∀ q : ℤ × ℤ, dist pos q ≤ spec.max_range
      ↔ (dist_sq pos q : ℚ) ≤ spec.max_range ^ 2) :
    0 < (find_best_base_station dist noise_b noise_l base_stations pos t).2.1
    ↔ ∃ st ∈ stations, (dist_sq pos st : ℚ) ≤ spec.max_range ^ 2 := by
  unfold find_best_base_station
  rw [hlookup]
  dsimp only
  cases hfm : first_min (dist pos) stations with
  | none =>
    have hnil := first_min_eq_none (dist pos) stations hfm
    subst hnil
    simp
  | some best =>
    obtain ⟨hmem, hle⟩ := first_min_mem_le (dist pos) stations best hfm
    dsimp only
    unfold calculate_qos_by_distance
    rw [hspec]
    dsimp only
    by_cases hr : spec.max_range < dist pos best
    · rw [if_pos hr]
      constructor
      · intro h
        norm_num at h
      · rintro ⟨st, hst, hsq⟩
        have h1 : dist pos st ≤ spec.max_range := (hdist st).mpr hsq
        exact absurd (le_trans (hle st hst) h1) (not_le.mpr hr)
    · rw [if_neg hr]
      constructor
      · intro _
        exact ⟨best, hmem, (hdist best).mp (le_of_not_lt hr)⟩
      · intro _
        exact lt_of_lt_of_le (by norm_num) (le_max_left _ _)

lemma mem_avail_name (dist : ℤ × ℤ → ℤ × ℤ → ℚ) (noise : String → ℚ × ℚ)
    (network_configs : List (String × NetworkConfig))
    (base_stations : List (String × List (ℤ × ℤ))) (pos : ℤ × ℤ) (t : String) :
    (∃ n ∈ compute_available_networks dist noise network_configs base_stations pos,
      n.name = t)
    ↔ ∃ p ∈ network_configs, p.1 = t ∧
        0 < (find_best_base_station dist (noise p.1).1 (noise p.1).2 base_stations
          pos p.1).2.1 := by
  unfold compute_available_networks
  constructor
  · rintro ⟨n, hn, hname⟩
    rw [List.mem_filterMap] at hn
    obtain ⟨p, hp, hf⟩ := hn
    dsimp only at hf
    by_cases hq : 0 < (find_best_base_station dist (noise p.1).1 (noise p.1).2
        base_stations pos p.1).2.1
    · rw [if_pos hq] at hf
      injection hf with hf
      refine ⟨p, hp, ?_, hq⟩
      rw [← hname, ← hf]
    · rw [if_neg hq] at hf
      cases hf
  · rintro ⟨p, hp, hpt, hq⟩
    refine ⟨⟨p.1, round1 (find_best_base_station dist (noise p.1).1 (noise p.1).2
      base_stations pos p.1).2.1,
      (find_best_base_station dist (noise p.1).1 (noise p.1).2 base_stations
        pos p.1).2.2, true⟩, ?_, hpt⟩
    rw [List.mem_filterMap]
    refine ⟨p, hp, ?_⟩
    dsimp only
    rw [if_pos hq]

lemma avail_entry_props (dist : ℤ × ℤ → ℤ × ℤ → ℚ) (noise : String → ℚ × ℚ)
    (network_configs : List (String × NetworkConfig))
    (base_stations : List (String × List (ℤ × ℤ))) (pos : ℤ × ℤ) :
    ∀ n ∈ compute_available_networks dist noise network_configs base_stations pos,
      n.is_available = true ∧ 1/10 ≤ n.bandwidth ∧ 5 ≤ n.latency := by
  intro n hn
  unfold compute_available_networks at hn
  rw [List.mem_filterMap] at hn
  obtain ⟨p, hp, hf⟩ := hn
  dsimp only at hf
  by_cases hq : 0 < (find_best_base_station dist (noise p.1).1 (noise p.1).2
      base_stations pos p.1).2.1
  · rw [if_pos hq] at hf
    injection hf with hf
    obtain ⟨hb, hl⟩ := find_best_qos_bounds dist (noise p.1).1 (noise p.1).2
      base_stations pos p.1 hq
    rw [← hf]
    exact ⟨rfl, round1_ge_tenth _ hb, hl⟩
  · rw [if_neg hq] at hf
    cases hf

/-- Membership of a type in the rebuilt list reduces to its best station's
in-range test, for any config entry carrying that type name. -/
lemma avail_iff_type (dist : ℤ × ℤ → ℤ × ℤ → ℚ) (noise : String → ℚ × ℚ)
    (network_configs : List (String × NetworkConfig))
    (base_stations : List (String × List (ℤ × ℤ))) (pos : ℤ × ℤ) (t : String)
    (spec : QosSpec) (stations : List (ℤ × ℤ))
    (hspec : max_specs t = some spec)
    (hlookup : base_stations.lookup t = some stations)
    (hex : ∃ p ∈ network_configs, p.1 = t)
    (hdist1 : ∀ q : ℤ × ℤ, dist pos q ≤ spec.max_range
      ↔ (dist_sq pos q : ℚ) ≤ spec.max_range ^ 2) :
    (∃ n ∈ compute_available_networks dist noise network_configs base_stations pos,
      n.name = t)
    ↔ ∃ st ∈ stations, (dist_sq pos st : ℚ) ≤ spec.max_range ^ 2 := by
  rw [mem_avail_name]
  have h2 := find_best_pos_iff dist (noise t).1 (noise t).2 base_stations pos t spec
    stations hspec hlookup hdist1
  constructor
  · rintro ⟨p, hp, hpt, hq⟩
    rw [hpt] at hq
    exact h2.mp hq
  · intro h
    obtain ⟨p, hp, hpt⟩ := hex
    refine ⟨p, hp, hpt, ?_⟩
    rw [hpt]
    exact h2.mpr h

/-- C9: after construction and after every simulation step or reset — each of
which ends by rebuilding the list at the device's current position — the
available-network list contains an entry for a network type iff some base
station of that type lies within the type's maximum range of the device
(distance at most R, stated as squared distance at most R²; nearest-station
distance ≤ R is equivalent to some-station distance ≤ R); every entry has
`is_available = true`, bandwidth at least 0.1 after the one-decimal rounding
and integer latency at least 5; out-of-range types are omitted entirely. -/
theorem C9_available_networks (dist : ℤ × ℤ → ℤ × ℤ → ℚ) (noise : String → ℚ × ℚ)
    (hdist : ∀ (t : String) (spec : QosSpec), max_specs t = some spec →
      ∀ p q : ℤ × ℤ, dist p q ≤ spec.max_range
        ↔ (dist_sq p q : ℚ) ≤ spec.max_range ^ 2) :
    (∀ pos : ℤ × ℤ,
      (∀ n ∈ compute_available_networks dist noise init_network_configs
          init_base_stations pos,
        n.is_available = true ∧ 1/10 ≤ n.bandwidth ∧ 5 ≤ n.latency)
      ∧ ((∃ n ∈ compute_available_networks dist noise init_network_configs
            init_base_stations pos, n.name = "Wi-Fi")
          ↔ ∃ st ∈ [((100:ℤ), (100:ℤ)), (300, 250), (600, 400), (800, 750)],
              (dist_sq pos st : ℚ) ≤ 100 ^ 2)
      ∧ ((∃ n ∈ compute_available_networks dist noise init_network_configs
            init_base_stations pos, n.name = "5G")
          ↔ ∃ st ∈ [((200:ℤ), (200:ℤ)), (500, 300), (700, 600), (900, 100)],
              (dist_sq pos st : ℚ) ≤ 500 ^ 2)
      ∧ ((∃ n ∈ compute_available_networks dist noise init_network_configs
            init_base_stations pos, n.name = "BLE")
          ↔ ∃ st ∈ [((150:ℤ), (150:ℤ)), (350, 350), (550, 550), (750, 750)],
              (dist_sq pos st : ℚ) ≤ 50 ^ 2)
      ∧ (∀ t : String, t ≠ "Wi-Fi" → t ≠ "5G" → t ≠ "BLE" →
          ¬∃ n ∈ compute_available_networks dist noise init_network_configs
              init_base_stations pos, n.name = t))
    ∧ (∀ map_size : ℤ × ℤ,
        (init_simulation dist noise map_size).device_state.available_networks
          = compute_available_networks dist noise init_network_configs
              init_base_stations (0, 0))
    ∧ (∀ (dir : ℤ × ℤ) (rand : ℚ) (s : SimState),
        (run_simulation_step dist noise dir rand s).device_state.available_networks
          = compute_available_networks dist noise s.network_configs s.base_stations
              (move_device dir 10 { s with simulation_step := s.simulation_step + 1 }))
    ∧ (∀ (s : SimState) (p : ℤ × ℤ),
        (reset_simulation dist noise s p).device_state.available_networks
          = compute_available_networks dist noise s.network_configs s.base_stations p) := by
  refine ⟨?_, fun map_size => rfl, fun dir rand s => rfl, fun s p => rfl⟩
  intro pos
  refine ⟨avail_entry_props dist noise init_network_configs init_base_stations pos,
    ?_, ?_, ?_, ?_⟩
  · exact avail_iff_type dist noise init_network_configs init_base_stations pos
      "Wi-Fi" ⟨100, 5, 100⟩ [(100, 100), (300, 250), (600, 400), (800, 750)] rfl
      (by decide) ⟨("Wi-Fi", ⟨"Wi-Fi", 1/2, 10, 2⟩), by simp [init_network_configs], rfl⟩
      (hdist "Wi-Fi" ⟨100, 5, 100⟩ rfl pos)
  · exact avail_iff_type dist noise init_network_configs init_base_stations pos
      "5G" ⟨200, 10, 500⟩ [(200, 200), (500, 300), (700, 600), (900, 100)] rfl
      (by decide) ⟨("5G", ⟨"5G", 12/10, 15, 5⟩), by simp [init_network_configs], rfl⟩
      (hdist "5G" ⟨200, 10, 500⟩ rfl pos)
  · exact avail_iff_type dist noise init_network_configs init_base_stations pos
      "BLE" ⟨2, 20, 50⟩ [(150, 150), (350, 350), (550, 550), (750, 750)] rfl
      (by decide) ⟨("BLE", ⟨"BLE", 1/10, 2, 1/2⟩), by simp [init_network_configs], rfl⟩
      (hdist "BLE" ⟨2, 20, 50⟩ rfl pos)
  · intro t h1 h2 h3 hcontra
    rw [mem_avail_name] at hcontra
    obtain ⟨p, hp, hpt, _⟩ := hcontra
    simp only [init_network_configs, List.mem_cons, List.not_mem_nil, or_false] at hp
    rcases hp with rfl | rfl | rfl
    · exact h1 hpt.symm
    · exact h2 hpt.symm
    · exact h3 hpt.symm

/-- A computable rational stand-in for the Euclidean distance: any strictly
increasing reparametrisation of the squared distance that crosses each
configured maximum range exactly where the true distance does.  Used only to
witness the distance hypothesis of the availability theorem. -/
def dist_g (n : ℤ) : ℚ :=
  if n ≤ 2500 then (n : ℚ) / 50
  else if n ≤ 10000 then 50 + ((n : ℚ) - 2500) / 150
  else if n ≤ 250000 then 100 + ((n : ℚ) - 10000) / 600
  else 500 + ((n : ℚ) - 250000)

def demo_dist (p q : ℤ × ℤ) : ℚ := dist_g (dist_sq p q)

lemma dist_g_thresholds (n : ℤ) :
    (dist_g n ≤ 50 ↔ (n : ℚ) ≤ 50 ^ 2)
    ∧ (dist_g n ≤ 100 ↔ (n : ℚ) ≤ 100 ^ 2)
    ∧ (dist_g n ≤ 500 ↔ (n : ℚ) ≤ 500 ^ 2) := by
  have h50 : ((50:ℚ) ^ 2) = 2500 := by norm_num
  have h100 : ((100:ℚ) ^ 2) = 10000 := by norm_num
  have h500 : ((500:ℚ) ^ 2) = 250000 := by norm_num
  rw [h50, h100, h500]
  unfold dist_g
  split_ifs with h1 h2 h3
  · have hq : (n : ℚ) ≤ 2500 := by exact_mod_cast h1
    exact ⟨iff_of_true (by linarith) hq,
      iff_of_true (by linarith) (by linarith),
      iff_of_true (by linarith) (by linarith)⟩
  · have hq1 : (2500 : ℚ) < n := by exact_mod_cast lt_of_not_le h1
    have hq2 : (n : ℚ) ≤ 10000 := by exact_mod_cast h2
    refine ⟨iff_of_false ?_ ?_, iff_of_true ?_ ?_, iff_of_true ?_ ?_⟩
    · intro hcon
      linarith
    · intro hcon
      linarith
    · linarith
    · linarith
    · linarith
    · linarith
  · have hq1 : (10000 : ℚ) < n := by exact_mod_cast lt_of_not_le h2
    have hq3 : (n : ℚ) ≤ 250000 := by exact_mod_cast h3
    refine ⟨iff_of_false ?_ ?_, iff_of_false ?_ ?_, iff_of_true ?_ ?_⟩
    · intro hcon
      linarith
    · intro hcon
      linarith
    · intro hcon
      linarith
    · intro hcon
      linarith
    · linarith
    · linarith
  · have hq : (250000 : ℚ) < n := by exact_mod_cast lt_of_not_le h3
    refine ⟨iff_of_false ?_ ?_, iff_of_false ?_ ?_, iff_of_false ?_ ?_⟩
    all_goals intro hcon
    all_goals linarith

lemma demo_dist_compat : ∀ (t : String) (spec : QosSpec), max_specs t = some spec →
    ∀ p q : ℤ × ℤ, demo_dist p q ≤ spec.max_range
      ↔ (dist_sq p q : ℚ) ≤ spec.max_range ^ 2 := by
  intro t spec hspec p q
  unfold max_specs at hspec
  split_ifs at hspec with h1 h2 h3
  · injection hspec with h
    subst h
    exact (dist_g_thresholds (dist_sq p q)).2.1
  · injection hspec with h
    subst h
    exact (dist_g_thresholds (dist_sq p q)).2.2
  · injection hspec with h
    subst h
    exact (dist_g_thresholds (dist_sq p q)).1

theorem C9_witness :
    (∃ n ∈ compute_available_networks demo_dist noise0 init_network_configs
        init_base_stations (100, 100), n.name = "Wi-Fi")
    ↔ ∃ st ∈ [((100:ℤ), (100:ℤ)), (300, 250), (600, 400), (800, 750)],
        (dist_sq (100, 100) st : ℚ) ≤ 100 ^ 2 :=
  ((C9_available_networks demo_dist noise0 demo_dist_compat).1 (100, 100)).2.1

end ComSys
